import Mathlib

/-!
Shallow embedding of the odin-control excalibur FEM stub API
(src/plugins/excalibur/fem_api_source) and proofs of its specified
properties.

The embedded code consists of:
* `ExcaliburFemClient` (ExcaliburFemClient.cpp/.h): an identifier-validated
  client object; the constructor throws a `FemClientException` with code
  30000 when the configured id is negative.
* `FemApiError` (FemApiError.cpp/.h): process-wide last-error state, a
  static string and a static integer code.  `Set(code)` records the code;
  `Set()` records no code.  In both cases the destructor overwrites the
  static message with the streamed text.
* the free functions of femApi.cpp: `femInitialise`, `femGetId`,
  `femGetInt`, `femSetInt`, `femCmd`, `femErrorMsg`, `femErrorCode`,
  together with the process-wide `int_params` map.
* the Python wrapper fem_api_wrapper.c: an opaque `Fem` capsule holding a
  nullable handle; every operation validates the handle and fails when it
  is null (the post-close state).

Mutable process state (the `int_params` map and the two `FemApiError`
statics) is modelled as an explicit `FemState` record threaded through the
operations.  The C `int*` output buffer of `femGetInt` is modelled as the
list of values written; an element read past the end of the stored
`std::vector` (undefined behaviour in the source) is modelled as `none`.
-/

/-- Return codes from femApi.h. -/
def FEM_RTN_OK : Int := 0

def FEM_RTN_UNKNOWNOPID : Int := 1

/-- Command identifiers from femApi.h. -/
def FEM_OP_STARTACQUISITION : Int := 1

def FEM_OP_STOPACQUISITION : Int := 2

def FEM_OP_LOADPIXELCONFIG : Int := 3

def FEM_OP_FREEALLFRAMES : Int := 4

def FEM_OP_LOADDACCONFIG : Int := 5

def FEM_OP_FEINIT : Int := 6

def FEM_OP_REBOOT : Int := 7

/-- CtlConfig from femApi.h.  The address/port/data fields are carried but
never read by the stub logic, so only `femNumber` is modelled. -/
structure CtlConfig where
  femNumber : Int
deriving DecidableEq, Repr

/-- FemClientException (FemException.h): an error code and a what() text. -/
structure FemClientException where
  which : Int
  what : String
deriving DecidableEq, Repr

/-- ExcaliburFemClient (ExcaliburFemClient.h): stores the validated id. -/
structure ExcaliburFemClient where
  id_ : Int
deriving DecidableEq, Repr

/-- ExcaliburFemClient constructor (ExcaliburFemClient.cpp lines 5-14):
sets id_ from the config femNumber and throws
FemClientException(30000, "Illegal ID specified") when it is negative.
The throw is modelled as `Except.error`. -/
def ExcaliburFemClient.construct (aConfig : CtlConfig) :
    Except FemClientException ExcaliburFemClient :=
  if aConfig.femNumber < 0 then
    .error ⟨30000, "Illegal ID specified"⟩
  else
    .ok ⟨aConfig.femNumber⟩

/-- ExcaliburFemClient::get_id (ExcaliburFemClient.cpp lines 21-23). -/
def ExcaliburFemClient.get_id (c : ExcaliburFemClient) : Int := c.id_

/-- The process-wide mutable state of femApi.cpp and FemApiError.cpp:
the `int_params` map and the two FemApiError statics. -/
structure FemState where
  int_params : Int → Option (List Int)
  error_string_ : String
  error_code_ : Int

/-- The state at process start: empty map, empty error string, code 0. -/
def initialState : FemState :=
  { int_params := fun _ => none, error_string_ := "", error_code_ := 0 }

/-- FemApiError().Set(code) << msg  (FemApiError.cpp): records the code and
overwrites the static message at destruction. -/
def FemApiError.SetCode (s : FemState) (error_code : Int) (msg : String) :
    FemState :=
  { s with error_code_ := error_code, error_string_ := msg }

/-- FemApiError().Set() << msg  (FemApiError.cpp): overwrites the static
message at destruction; the static code is left unchanged. -/
def FemApiError.SetMsg (s : FemState) (msg : String) : FemState :=
  { s with error_string_ := msg }

/-- femErrorMsg (femApi.cpp lines 13-16). -/
def femErrorMsg (s : FemState) : String := s.error_string_

/-- femErrorCode (femApi.cpp lines 18-21). -/
def femErrorCode (s : FemState) : Int := s.error_code_

/-- femInitialise (femApi.cpp lines 23-35): constructs an
ExcaliburFemClient; on a FemClientException it sets the error state to the
exception code and the streamed message and returns NULL (`none`). -/
def femInitialise (s : FemState) (config : CtlConfig) :
    Option ExcaliburFemClient × FemState :=
  match ExcaliburFemClient.construct config with
  | .ok theFem => (some theFem, s)
  | .error e =>
      (none,
       FemApiError.SetCode s e.which
         ("Error trying to initialise FEM id " ++ toString config.femNumber
           ++ ": " ++ e.what))

/-- femGetId (femApi.cpp lines 91-96): dereferences the handle and returns
get_id(). -/
def femGetId (femHandle : ExcaliburFemClient) : Int :=
  femHandle.get_id

/-- femGetInt (femApi.cpp lines 37-54).  If `int_params` holds an entry for
`id`, the loop copies `int_params[id][i]` for `0 <= i < size` into the
output buffer; the vector access is not bounds-checked in the source, so an
access at an index at or beyond the stored length (undefined behaviour) is
modelled as `none`.  If no entry exists, position `i` receives `id + i`.
The return code is always FEM_RTN_OK; neither the handle nor the chip id is
inspected. -/
def femGetInt (s : FemState) (femHandle : Option ExcaliburFemClient)
    (chipId : Int) (id : Int) (size : Nat) : Int × List (Option Int) :=
  match s.int_params id with
  | some stored => (FEM_RTN_OK, (List.range size).map fun i => stored[i]?)
  | none =>
      (FEM_RTN_OK, (List.range size).map fun (i : Nat) => some (id + (i : Int)))

/-- femSetInt (femApi.cpp lines 56-63): replaces the `int_params` entry for
`id` with the given values and returns FEM_RTN_OK; neither the handle nor
the chip id is inspected. -/
def femSetInt (s : FemState) (femHandle : Option ExcaliburFemClient)
    (chipId : Int) (id : Int) (value : List Int) : Int × FemState :=
  (FEM_RTN_OK,
   { s with int_params := fun k => if k = id then some value else s.int_params k })

/-- femCmd (femApi.cpp lines 65-89): the seven recognised command ids are a
no-op returning FEM_RTN_OK; any other id returns FEM_RTN_UNKNOWNOPID and
streams a message through FemApiError().Set() (no code); neither the handle
nor the chip id is inspected. -/
def femCmd (s : FemState) (femHandler : Option ExcaliburFemClient)
    (chipId : Int) (id : Int) : Int × FemState :=
  if id = FEM_OP_STARTACQUISITION ∨ id = FEM_OP_STOPACQUISITION ∨
     id = FEM_OP_LOADPIXELCONFIG ∨ id = FEM_OP_FREEALLFRAMES ∨
     id = FEM_OP_LOADDACCONFIG ∨ id = FEM_OP_FEINIT ∨ id = FEM_OP_REBOOT then
    (FEM_RTN_OK, s)
  else
    (FEM_RTN_UNKNOWNOPID,
     FemApiError.SetMsg s ("femCmd: illegal command ID: " ++ toString id))

/-- Fem (fem_api_wrapper.c): the opaque capsule structure wrapping the real
handle, which `_close` sets to NULL. -/
structure Fem where
  handle : Option ExcaliburFemClient
deriving DecidableEq, Repr

/-- The error message produced by _validate_ptr_and_handle
(fem_api_wrapper.c lines 62-68) when the wrapped handle is null. -/
def nullHandleMsg (func_name : String) : String :=
  func_name ++ ": FEM object pointer has null FEM handle"

/-- _get_id (fem_api_wrapper.c): validates the handle, then femGetId. -/
def wrap_get_id (p : Fem) : Except String Int :=
  match p.handle with
  | none => .error (nullHandleMsg "get_id")
  | some h => .ok (femGetId h)

/-- _get_int (fem_api_wrapper.c): validates the handle, then femGetInt,
returning the status and the values list. -/
def wrap_get_int (s : FemState) (p : Fem) (chip_id param_id : Int)
    (size : Nat) : Except String (Int × List (Option Int)) :=
  match p.handle with
  | none => .error (nullHandleMsg "get_int")
  | some h => .ok (femGetInt s (some h) chip_id param_id size)

/-- _set_int (fem_api_wrapper.c): validates the handle, then femSetInt,
returning the status and the updated process state. -/
def wrap_set_int (s : FemState) (p : Fem) (chip_id param_id : Int)
    (values : List Int) : Except String (Int × FemState) :=
  match p.handle with
  | none => .error (nullHandleMsg "set_int")
  | some h => .ok (femSetInt s (some h) chip_id param_id values)

/-- _cmd (fem_api_wrapper.c): validates the handle, then femCmd. -/
def wrap_cmd (s : FemState) (p : Fem) (chipId cmdId : Int) :
    Except String (Int × FemState) :=
  match p.handle with
  | none => .error (nullHandleMsg "cmd")
  | some h => .ok (femCmd s (some h) chipId cmdId)

/-- _close (fem_api_wrapper.c lines 279-295): validates the handle, calls
femClose on it and sets the capsule's handle to NULL. -/
def wrap_close (p : Fem) : Except String Fem :=
  match p.handle with
  | none => .error (nullHandleMsg "close")
  | some _ => .ok { p with handle := none }

/-- Boolean test that `pat` occurs at the start of `s`. -/
def charsStartWith : List Char → List Char → Bool
  | [], _ => true
  | _ :: _, [] => false
  | a :: as, b :: bs => a = b && charsStartWith as bs

/-- Boolean test that `pat` occurs contiguously somewhere in `s`. -/
def charsContain (pat : List Char) : List Char → Bool
  | [] => charsStartWith pat []
  | b :: bs => charsStartWith pat (b :: bs) || charsContain pat bs

/-- Boolean test that the string `pat` occurs contiguously in `s`. -/
def strContains (s pat : String) : Bool :=
  charsContain pat.data s.data

/-- The list written by the femGetInt copy loop over a stored entry, read
back in full, is the stored entry itself. -/
theorem range_length_map_getElem (l : List Int) :
    (List.range l.length).map (fun i => l[i]?) = l.map some := by
  apply List.ext_getElem?
  intro i
  by_cases hi : i < l.length
  · simp [List.getElem?_map, List.getElem?_range hi, List.getElem?_eq_getElem hi]
  · have hle : l.length ≤ i := Nat.le_of_not_lt hi
    rw [List.getElem?_eq_none (by simpa using hle),
      List.getElem?_eq_none (by simpa using hle)]

/-- C1: for every identifier strictly below zero, the ExcaliburFemClient
constructor throws FemClientException(30000, "Illegal ID specified") and
femInitialise returns a null handle. -/
theorem init_illegal_identifier (s : FemState) (config : CtlConfig)
    (h : config.femNumber < 0) :
    ExcaliburFemClient.construct config =
      .error ⟨30000, "Illegal ID specified"⟩ ∧
    (femInitialise s config).1 = none := by
  constructor
  · simp [ExcaliburFemClient.construct, h]
  · simp [femInitialise, ExcaliburFemClient.construct, h]

/-- Witness for init_illegal_identifier at identifier -1. -/
theorem init_illegal_identifier_witness :
    (-1 : Int) < 0 ∧
    (ExcaliburFemClient.construct ⟨-1⟩ =
       .error ⟨30000, "Illegal ID specified"⟩ ∧
     (femInitialise initialState ⟨-1⟩).1 = none) :=
  ⟨by decide, init_illegal_identifier initialState ⟨-1⟩ (by decide)⟩

/-- C2: for every identifier at or above zero, femInitialise returns a
non-null handle and femGetId on that handle returns the identifier
unchanged. -/
theorem init_nonneg_get_id (s : FemState) (config : CtlConfig)
    (h : 0 ≤ config.femNumber) :
    ∃ fem, (femInitialise s config).1 = some fem ∧
      femGetId fem = config.femNumber := by
  refine ⟨⟨config.femNumber⟩, ?_, rfl⟩
  simp [femInitialise, ExcaliburFemClient.construct, not_lt.mpr h]

/-- Witness for init_nonneg_get_id at identifier 5. -/
theorem init_nonneg_get_id_witness :
    (0 : Int) ≤ 5 ∧
    ∃ fem, (femInitialise initialState ⟨5⟩).1 = some fem ∧
      femGetId fem = 5 :=
  ⟨by decide, init_nonneg_get_id initialState ⟨5⟩ (by decide)⟩

/-- C3: femSetInt always returns FEM_RTN_OK and replaces any previous
entry, so femGetInt with the stored length reads back exactly the values
just written, from any starting state. -/
theorem set_get_roundtrip (s : FemState) (hnd : Option ExcaliburFemClient)
    (chip chip2 pid : Int) (vs : List Int) :
    (femSetInt s hnd chip pid vs).1 = FEM_RTN_OK ∧
    femGetInt (femSetInt s hnd chip pid vs).2 hnd chip2 pid vs.length =
      (FEM_RTN_OK, vs.map some) := by
  refine ⟨rfl, ?_⟩
  have h1 : (femSetInt s hnd chip pid vs).2.int_params pid = some vs := by
    simp [femSetInt]
  simp [femGetInt, h1, range_length_map_getElem]

/-- C4: a femGetInt on a parameter id with no stored entry yields, at every
position i below the requested count, the value id + i. -/
theorem default_read_law (s : FemState) (hnd : Option ExcaliburFemClient)
    (chip pid : Int) (n : Nat) (hnone : s.int_params pid = none) :
    ∀ i : Nat, i < n →
      ((femGetInt s hnd chip pid n).2)[i]? = some (some (pid + (i : Int))) := by
  intro i hi
  simp only [femGetInt, hnone, List.getElem?_map, List.getElem?_range hi,
    Option.map_some']

/-- Witness for default_read_law: a fresh store, pid 7, count 2, i 1. -/
theorem default_read_law_witness :
    initialState.int_params 7 = none ∧
    ((femGetInt initialState none 0 7 2).2)[1]? =
      some (some ((7 : Int) + ((1 : Nat) : Int))) :=
  ⟨rfl, default_read_law initialState none 0 7 2 rfl 1 (by decide)⟩

/-- C5: femCmd returns FEM_RTN_OK exactly when the id is one of the seven
recognised command ids 1..7, in which case it is a no-op on the state; any
other id returns FEM_RTN_UNKNOWNOPID and records the descriptive message in
the error state. -/
theorem command_table_closure (s : FemState)
    (femHandler : Option ExcaliburFemClient) (chip id : Int) :
    ((femCmd s femHandler chip id).1 = FEM_RTN_OK ↔
      (id = 1 ∨ id = 2 ∨ id = 3 ∨ id = 4 ∨ id = 5 ∨ id = 6 ∨ id = 7)) ∧
    ((id = 1 ∨ id = 2 ∨ id = 3 ∨ id = 4 ∨ id = 5 ∨ id = 6 ∨ id = 7) →
      femCmd s femHandler chip id = (FEM_RTN_OK, s)) ∧
    (¬(id = 1 ∨ id = 2 ∨ id = 3 ∨ id = 4 ∨ id = 5 ∨ id = 6 ∨ id = 7) →
      femCmd s femHandler chip id =
        (FEM_RTN_UNKNOWNOPID,
         FemApiError.SetMsg s ("femCmd: illegal command ID: " ++ toString id))) := by
  unfold femCmd FEM_OP_STARTACQUISITION FEM_OP_STOPACQUISITION
    FEM_OP_LOADPIXELCONFIG FEM_OP_FREEALLFRAMES FEM_OP_LOADDACCONFIG
    FEM_OP_FEINIT FEM_OP_REBOOT
  by_cases hc : id = 1 ∨ id = 2 ∨ id = 3 ∨ id = 4 ∨ id = 5 ∨ id = 6 ∨ id = 7
  · rw [if_pos hc]
    exact ⟨⟨fun _ => hc, fun _ => rfl⟩, fun _ => rfl, fun hn => absurd hc hn⟩
  · rw [if_neg hc]
    refine ⟨⟨fun h0 => absurd h0 (by simp [FEM_RTN_UNKNOWNOPID, FEM_RTN_OK]),
      fun h => absurd h hc⟩, fun h => absurd h hc, fun _ => rfl⟩

/-- Witness for command_table_closure: id 9999 is rejected with the
message, id 1 is a recognised no-op. -/
theorem command_table_closure_witness :
    ¬((9999 : Int) = 1 ∨ (9999 : Int) = 2 ∨ (9999 : Int) = 3 ∨
      (9999 : Int) = 4 ∨ (9999 : Int) = 5 ∨ (9999 : Int) = 6 ∨
      (9999 : Int) = 7) ∧
    femCmd initialState none 0 9999 =
      (FEM_RTN_UNKNOWNOPID,
       FemApiError.SetMsg initialState
         ("femCmd: illegal command ID: " ++ toString (9999 : Int))) ∧
    femCmd initialState none 0 1 = (FEM_RTN_OK, initialState) :=
  ⟨by decide,
   (command_table_closure initialState none 0 9999).2.2 (by decide),
   (command_table_closure initialState none 0 1).2.1 (by decide)⟩

/-- C6: with the entry [1, 2, 3] of length 3 stored under parameter id 100,
reading count 5 reaches the out-of-bounds vector accesses at positions 3
and 4 (modelled as `none`) while still returning FEM_RTN_OK — the source
performs no bounds check of the count against the stored length and has no
OutOfRange failure. -/
theorem unchecked_read_reachable :
    (3 : Nat) < 5 ∧
    (femSetInt initialState none 0 100 [1, 2, 3]).2.int_params 100 =
      some [1, 2, 3] ∧
    femGetInt (femSetInt initialState none 0 100 [1, 2, 3]).2 none 0 100 5 =
      (FEM_RTN_OK, [some 1, some 2, some 3, none, none]) := by
  refine ⟨by decide, rfl, by decide⟩

/-- C7 counterexample: femCmd with an unrecognised id is a failing
operation (status FEM_RTN_UNKNOWNOPID), yet it does not overwrite the error
code: run from the fresh state the code afterwards is still 0 ("no error"),
and run after a failed initialise the code afterwards is still 30000, the
code of the earlier failure — so the code read back is not a value
describing the femCmd failure. -/
theorem error_code_not_overwritten_cex :
    (femCmd initialState none 0 9999).1 = FEM_RTN_UNKNOWNOPID ∧
    femErrorCode (femCmd initialState none 0 9999).2 = 0 ∧
    (femCmd (femInitialise initialState ⟨-1⟩).2 none 0 9999).1 =
      FEM_RTN_UNKNOWNOPID ∧
    femErrorCode (femCmd (femInitialise initialState ⟨-1⟩).2 none 0 9999).2 =
      30000 := by
  refine ⟨by decide, rfl, by decide, rfl⟩

/-- C7 amended: every failing operation overwrites the error message with
the message describing that failure, but only a failing initialise (which
carries the exception code) also overwrites the error code; a failing
femCmd leaves the previous error code unchanged. -/
theorem error_state_on_failure (s : FemState)
    (hnd : Option ExcaliburFemClient) (chip id : Int) (config : CtlConfig)
    (hcmd : (femCmd s hnd chip id).1 ≠ FEM_RTN_OK)
    (hinit : (femInitialise s config).1 = none) :
    femErrorMsg (femCmd s hnd chip id).2 =
      "femCmd: illegal command ID: " ++ toString id ∧
    femErrorCode (femCmd s hnd chip id).2 = femErrorCode s ∧
    femErrorCode (femInitialise s config).2 = 30000 ∧
    femErrorMsg (femInitialise s config).2 =
      "Error trying to initialise FEM id " ++ toString config.femNumber ++
        ": " ++ "Illegal ID specified" := by
  have hc : ¬(id = FEM_OP_STARTACQUISITION ∨ id = FEM_OP_STOPACQUISITION ∨
      id = FEM_OP_LOADPIXELCONFIG ∨ id = FEM_OP_FREEALLFRAMES ∨
      id = FEM_OP_LOADDACCONFIG ∨ id = FEM_OP_FEINIT ∨ id = FEM_OP_REBOOT) := by
    intro h
    exact hcmd (by rw [femCmd, if_pos h])
  have hneg : config.femNumber < 0 := by
    by_contra hge
    have : (femInitialise s config).1 = some ⟨config.femNumber⟩ := by
      simp [femInitialise, ExcaliburFemClient.construct, hge]
    rw [this] at hinit
    cases hinit
  refine ⟨?_, ?_, ?_, ?_⟩
  · rw [femCmd, if_neg hc]
    rfl
  · rw [femCmd, if_neg hc]
    rfl
  · simp [femInitialise, ExcaliburFemClient.construct, hneg, femErrorCode,
      FemApiError.SetCode]
  · simp [femInitialise, ExcaliburFemClient.construct, hneg, femErrorMsg,
      FemApiError.SetCode]

/-- Witness for error_state_on_failure: femCmd id 9999 and initialise of
identifier -1, from the fresh state. -/
theorem error_state_on_failure_witness :
    ((femCmd initialState none 0 9999).1 ≠ FEM_RTN_OK ∧
     (femInitialise initialState ⟨-1⟩).1 = none) ∧
    (femErrorMsg (femCmd initialState none 0 9999).2 =
       "femCmd: illegal command ID: " ++ toString (9999 : Int) ∧
     femErrorCode (femCmd initialState none 0 9999).2 =
       femErrorCode initialState ∧
     femErrorCode (femInitialise initialState ⟨-1⟩).2 = 30000 ∧
     femErrorMsg (femInitialise initialState ⟨-1⟩).2 =
       "Error trying to initialise FEM id " ++ toString (-1 : Int) ++
         ": " ++ "Illegal ID specified") :=
  ⟨⟨by decide, rfl⟩,
   error_state_on_failure initialState none 0 9999 ⟨-1⟩ (by decide) rfl⟩

/-- C8: initialise of identifier -1 returns a null handle, the error code
accessor afterwards reports 30000 (non-zero), and the error message
accessor reports a text containing "-1", from any starting state. -/
theorem init_neg_error_report (s : FemState) :
    (femInitialise s ⟨-1⟩).1 = none ∧
    femErrorCode (femInitialise s ⟨-1⟩).2 = 30000 ∧
    femErrorCode (femInitialise s ⟨-1⟩).2 ≠ 0 ∧
    strContains (femErrorMsg (femInitialise s ⟨-1⟩).2) "-1" = true := by
  have hcode : femErrorCode (femInitialise s ⟨-1⟩).2 = 30000 := rfl
  have hmsg : femErrorMsg (femInitialise s ⟨-1⟩).2 =
      "Error trying to initialise FEM id -1: Illegal ID specified" := rfl
  refine ⟨rfl, hcode, ?_, ?_⟩
  · rw [hcode]
    decide
  · rw [hmsg]
    decide

/-- C9: once _close succeeds on a capsule, the returned capsule has a null
handle, so every further wrapper operation on it — get_id, get_int,
set_int, cmd and close itself — fails with the null-FEM-handle error of
_validate_ptr_and_handle instead of succeeding. -/
theorem close_then_all_ops_fail (p p2 : Fem)
    (hclose : wrap_close p = .ok p2) :
    wrap_get_id p2 = .error (nullHandleMsg "get_id") ∧
    (∀ s chip pid n, wrap_get_int s p2 chip pid n =
      .error (nullHandleMsg "get_int")) ∧
    (∀ s chip pid vs, wrap_set_int s p2 chip pid vs =
      .error (nullHandleMsg "set_int")) ∧
    (∀ s chip cmdId, wrap_cmd s p2 chip cmdId =
      .error (nullHandleMsg "cmd")) ∧
    wrap_close p2 = .error (nullHandleMsg "close") := by
  have hnone : p2.handle = none := by
    cases hp : p.handle with
    | none =>
        rw [wrap_close, hp] at hclose
        cases hclose
    | some h =>
        rw [wrap_close, hp] at hclose
        cases hclose
        rfl
  refine ⟨?_, fun s chip pid n => ?_, fun s chip pid vs => ?_,
    fun s chip cmdId => ?_, ?_⟩
  · rw [wrap_get_id, hnone]
  · rw [wrap_get_int, hnone]
  · rw [wrap_set_int, hnone]
  · rw [wrap_cmd, hnone]
  · rw [wrap_close, hnone]

/-- Witness for close_then_all_ops_fail: closing a capsule holding the
handle for id 5. -/
theorem close_then_all_ops_fail_witness :
    wrap_close ⟨some ⟨5⟩⟩ = .ok (⟨none⟩ : Fem) ∧
    wrap_get_id (⟨none⟩ : Fem) = .error (nullHandleMsg "get_id") ∧
    wrap_close (⟨none⟩ : Fem) = .error (nullHandleMsg "close") :=
  ⟨rfl, (close_then_all_ops_fail ⟨some ⟨5⟩⟩ ⟨none⟩ rfl).1,
   (close_then_all_ops_fail ⟨some ⟨5⟩⟩ ⟨none⟩ rfl).2.2.2.2⟩

/-- C10: femGetInt, femSetInt and femCmd never inspect the handle or the
chip-selector argument: from the same state, two calls differing only in
those arguments return the same status and values and produce the same
state. -/
theorem core_handle_chip_noninterference (s : FemState)
    (h1 h2 : Option ExcaliburFemClient) (c1 c2 pid : Int) (n : Nat)
    (vs : List Int) (cmdId : Int) :
    femGetInt s h1 c1 pid n = femGetInt s h2 c2 pid n ∧
    femSetInt s h1 c1 pid vs = femSetInt s h2 c2 pid vs ∧
    femCmd s h1 c1 cmdId = femCmd s h2 c2 cmdId :=
  ⟨rfl, rfl, rfl⟩
